import Mathlib

/-!
Shallow embedding of `src/chat.py` (the chat_RAG repository).

The repository is a thin Streamlit client around one HTTP call.  We embed:

* decoded JSON / Python values as the inductive `Json` (Python `None` is
  `Json.null`; `json.loads` maps JSON `null` to `None`, so the two coincide);
* Python dictionary access: `d.get(k, default)` as `dictGetD`, `d[k]` as
  `pySubscript`, `x[0]` as `pyIndex0`, each raising the exceptions CPython
  raises (`KeyError`, `IndexError`, `TypeError`, `AttributeError`) via
  `Except PyExc`;
* Python truthiness (`if not x`) as `truthy`;
* the HTTP layer: a network attempt either fails with a
  `requests.exceptions.RequestException` (connection error / timeout) or
  yields a response with a status code, a raw text body, a reason phrase,
  and — modelling `response.json()` — `json? : Option Json`, `none` exactly
  when the body is not parseable JSON (`json.JSONDecodeError`);
* `requests.Response.raise_for_status`, which raises `HTTPError` exactly for
  status codes in `[400, 600)` (the comment in the code says: "4XX or 5XX");
* the function `get_assistant_response(api_token, assistant_id,
  messages_history)` of `src/chat.py` lines 9–59, including its
  `try/except` dispatch: `HTTPError`, then `RequestException`, then
  `json.JSONDecodeError`, then `(IndexError, KeyError)`; any other exception
  (e.g. `AttributeError`/`TypeError` from ill-typed JSON) propagates and is
  modelled as `Except.error`;
* the error strings the function returns, as the inductive `ChatError`
  carrying the interpolated data, with `renderError` producing the exact
  f-strings of the source;
* the Streamlit session state (lines 67–74) and the
  "Refresh All & Clear Chat" handler (lines 103–111).
-/

namespace ChatRag

/-- A decoded JSON value, doubling as the Python value produced by
`json.loads` (`Json.null` is Python `None`). Objects keep their fields as an
association list; `json.loads` yields unique keys. -/
inductive Json where
  | null : Json
  | bool (b : Bool) : Json
  | num (n : Int) : Json
  | str (s : String) : Json
  | arr (elems : List Json) : Json
  | obj (fields : List (String × Json)) : Json

/-- First-match lookup in the field list of a JSON object (Python `dict` lookup;
JSON objects decoded by `json.loads` have unique keys). -/
def jlookup : List (String × Json) → String → Option Json
  | [], _ => none
  | (k, v) :: rest, key => if k = key then some v else jlookup rest key

/-- The CPython exceptions that the code paths of `get_assistant_response`
can raise while manipulating decoded JSON. -/
inductive PyExc where
  | indexError : PyExc
  | keyError : PyExc
  | typeError : PyExc
  | attributeError : PyExc
deriving DecidableEq

/-- Python `d.get(k, default)`: on a dict, the value of `k` (the `default`
only when `k` is absent — a field explicitly set to `null` is returned as
`None` itself); on any non-dict value, `AttributeError`. -/
def dictGetD (v : Json) (k : String) (default : Json) : Except PyExc Json :=
  match v with
  | .obj fields => .ok ((jlookup fields k).getD default)
  | _ => .error .attributeError

/-- Python `v[k]` for a string key `k`: `KeyError` when a dict lacks the key,
`TypeError` on non-dict values (lists and strings reject string indices). -/
def pySubscript (v : Json) (k : String) : Except PyExc Json :=
  match v with
  | .obj fields =>
    match jlookup fields k with
    | some x => .ok x
    | none => .error .keyError
  | _ => .error .typeError

/-- Python `v[0]`: first element of a list (`IndexError` when empty), first
character of a string (`IndexError` when empty), `KeyError` on a dict decoded
from JSON (its keys are strings, never the integer `0`), `TypeError` on
`None`, booleans and numbers. -/
def pyIndex0 (v : Json) : Except PyExc Json :=
  match v with
  | .arr [] => .error .indexError
  | .arr (x :: _) => .ok x
  | .str s => if s.isEmpty then .error .indexError else .ok (.str (s.take 1))
  | .obj _ => .error .keyError
  | _ => .error .typeError

/-- Python truthiness of a decoded JSON value (`if not x`). -/
def truthy : Json → Bool
  | .null => false
  | .bool b => b
  | .num n => n != 0
  | .str s => !s.isEmpty
  | .arr xs => !xs.isEmpty
  | .obj fields => !fields.isEmpty

/-- What CPython renders as `str(e)` for the exceptions the `(IndexError, KeyError)`
handler can catch (the messages interpolated into the shape-error string). -/
def renderExc : PyExc → String
  | .indexError => "list index out of range"
  | .keyError => "0"
  | .typeError => "type error"
  | .attributeError => "attribute error"

/-- The errors `get_assistant_response` returns (third component of its
result triple), one constructor per distinct return string of the source,
carrying the data the source interpolates into it. -/
inductive ChatError where
  | configMissing : ChatError
  | httpError (status : Nat) (reason : String) (body : String) (url : String) : ChatError
  | transportError (msg : String) : ChatError
  | jsonDecodeError (body : String) : ChatError
  | shapeError (exc : PyExc) : ChatError
  | emptyResponse : ChatError
deriving DecidableEq

/-- Line 16: `API_BASE_URL_TEMPLATE.format(assistant_id=assistant_id)`. -/
def apiUrl (assistant_id : String) : String :=
  "https://bot.insightstream.ru/agent/" ++ assistant_id ++ "/v1/chat/completions"

/-- The exact error strings of `src/chat.py`.  `str(HTTPError)` follows
`requests`: `"<status> Client Error: <reason> for url: <url>"` for 4xx and
`"<status> Server Error: ..."` for 5xx. -/
def renderError : ChatError → String
  | .configMissing => "API Token or Assistant ID is missing."
  | .httpError status reason body url =>
    "HTTP error occurred: " ++ toString status ++
      (if status < 500 then " Client Error: " else " Server Error: ") ++
      reason ++ " for url: " ++ url ++ ". Response: " ++ body
  | .transportError msg => "Request error: " ++ msg
  | .jsonDecodeError body => "JSON decode error. Response: " ++ body
  | .shapeError exc => "Unexpected API response structure: " ++ renderExc exc
  | .emptyResponse => "Received an empty response from the assistant."

/-- One HTTP response as seen by the function: status code, raw text body
(`response.text`), reason phrase, and `json?` — the result of
`response.json()`: `some` the decoded value, `none` when the body is not
parseable JSON (in the code, `json.JSONDecodeError` is raised). -/
structure HttpResponse where
  status : Nat
  body : String
  reason : String
  json? : Option Json

/-- Outcome of the `requests.post` attempt (line 34): a response, or a
`requests.exceptions.RequestException` (connection failure, DNS failure,
timeout) carrying its message. -/
inductive NetOutcome where
  | response (r : HttpResponse) : NetOutcome
  | transportFailure (msg : String) : NetOutcome

/-- The Python return triple `(answer, sources, error)`: `Json.null` models
Python `None` in the first two slots; `error` is `none` exactly when the
source returns `None` as third component. -/
structure SendResult where
  answer : Json
  sources : Json
  error : Option ChatError

/-- Result of one call of `get_assistant_response`: the returned triple (or
an uncaught exception, `Except.error`) together with whether the
`requests.post` network call was executed. -/
structure SendOutcome where
  result : Except PyExc SendResult
  networkCalled : Bool

/-- Lines 24–26: `api_payload_messages.append({"role": msg["role"],
"content": msg["content"]})` for each history entry, in order.  A missing
key raises `KeyError` (outside the `try` block, hence uncaught). -/
def buildPayloadMessages : List Json → Except PyExc (List Json)
  | [] => .ok []
  | m :: rest =>
    match pySubscript m "role" with
    | .error e => .error e
    | .ok r =>
      match pySubscript m "content" with
      | .error e => .error e
      | .ok c =>
        match buildPayloadMessages rest with
        | .error e => .error e
        | .ok tail => .ok (.obj [("role", r), ("content", c)] :: tail)

/-- Lines 28–31: `payload = {"messages": api_payload_messages,
"stream": False}` — the request body serialized by `json.dumps`. -/
def requestPayload (messages_history : List Json) : Except PyExc Json :=
  match buildPayloadMessages messages_history with
  | .error e => .error e
  | .ok pm => .ok (.obj [("messages", .arr pm), ("stream", .bool false)])

/-- Line 39: `data.get("choices", [{}])[0].get("message", {}).get("content")`. -/
def extractContent (data : Json) : Except PyExc Json :=
  match dictGetD data "choices" (.arr [.obj []]) with
  | .error e => .error e
  | .ok choices =>
    match pyIndex0 choices with
    | .error e => .error e
    | .ok c0 =>
      match dictGetD c0 "message" (.obj []) with
      | .error e => .error e
      | .ok msg => dictGetD msg "content" .null

/-- Lines 35–59: the response mapping inside the `try` block, with the
`except` dispatch of the source.  `raise_for_status` raises `HTTPError`
exactly for statuses in `[400, 600)`, caught by the first handler (line 47);
an unparseable body raises `json.JSONDecodeError`, caught at line 54;
`IndexError`/`KeyError` from line 39 are caught at line 57; `TypeError` and
`AttributeError` are caught by no handler and propagate. -/
def handleResponse (assistant_id : String) (r : HttpResponse) :
    Except PyExc SendResult :=
  if 400 ≤ r.status ∧ r.status < 600 then
    .ok ⟨.null, .null, some (.httpError r.status r.reason r.body (apiUrl assistant_id))⟩
  else
    match r.json? with
    | none => .ok ⟨.null, .null, some (.jsonDecodeError r.body)⟩
    | some data =>
      match extractContent data with
      | .error .indexError => .ok ⟨.null, .null, some (.shapeError .indexError)⟩
      | .error .keyError => .ok ⟨.null, .null, some (.shapeError .keyError)⟩
      | .error e => .error e
      | .ok assistant_content =>
        match dictGetD data "sources" .null with
        | .error e => .error e
        | .ok sources =>
          if truthy assistant_content then
            .ok ⟨assistant_content, sources, none⟩
          else
            .ok ⟨.null, .null, some .emptyResponse⟩

/-- The function `get_assistant_response(api_token, assistant_id,
messages_history)` of lines 9–59.  The `net` argument is the behaviour of the remote endpoint
for this one `requests.post` call; `networkCalled` records whether that call
was executed. -/
def get_assistant_response (api_token assistant_id : String)
    (messages_history : List Json) (net : NetOutcome) : SendOutcome :=
  if api_token = "" ∨ assistant_id = "" then
    ⟨.ok ⟨.null, .null, some .configMissing⟩, false⟩
  else
    match requestPayload messages_history with
    | .error e => ⟨.error e, false⟩
    | .ok _payload =>
      match net with
      | .transportFailure msg =>
        ⟨.ok ⟨.null, .null, some (.transportError msg)⟩, true⟩
      | .response r => ⟨handleResponse assistant_id r, true⟩

/-- The Streamlit session state the handlers read and write (lines 67–74):
the Conversation Store (`st.session_state.messages`) and the Session
Configuration (`api_token`, `assistant_id`), plus the pending
configuration-error banner. -/
structure SessionState where
  messages : List Json
  api_token : String
  assistant_id : String
  config_error : String

/-- The read-only snapshot of the Conversation Store: the ordered transcript. -/
def snapshot (s : SessionState) : List Json := s.messages

/-- Appending one message to the Conversation Store (line 141 / 173). -/
def appendMessage (s : SessionState) (m : Json) : SessionState :=
  { s with messages := s.messages ++ [m] }

/-- The "Refresh All & Clear Chat" handler (lines 103–111): clears the
transcript, both credentials and the error banner in one step. -/
def resetSession (_s : SessionState) : SessionState :=
  { messages := [], api_token := "", assistant_id := "", config_error := "" }

/-- The per-call view of the session used for the frame property: the
function receives the store by reference and the caller gets it back;
`get_assistant_response` (lines 9–59) contains no assignment to
`st.session_state.messages` and no mutating call on `messages_history`
(line 26 appends to the fresh list `api_payload_messages`), so the store
the caller holds after the call is the store it passed in. -/
def sendFromSession (s : SessionState) (net : NetOutcome) :
    SendOutcome × SessionState :=
  (get_assistant_response s.api_token s.assistant_id s.messages net, s)

/-! Sanity checks of the embedding on the concrete bodies used in the
testable-properties section of the spec. -/

example :
    (get_assistant_response "t" "a" []
      (.response ⟨200, "raw", "OK",
        some (.obj [("choices",
          .arr [.obj [("message", .obj [("content", .str "Hello")])]])])⟩)).result =
      .ok ⟨.str "Hello", .null, none⟩ := rfl

example :
    (get_assistant_response "t" "a" []
      (.response ⟨200, "raw", "OK",
        some (.obj [("choices",
          .arr [.obj [("message", .obj [("content", .str "")])]])])⟩)).result =
      .ok ⟨.null, .null, some .emptyResponse⟩ := rfl

example :
    (get_assistant_response "t" "a" []
      (.response ⟨500, "boom", "Internal Server Error", none⟩)).result =
      .ok ⟨.null, .null,
        some (.httpError 500 "Internal Server Error" "boom" (apiUrl "a"))⟩ := rfl

/-- With both credentials present and a well-formed history, the call
reaches the network and the outcome is the response mapping of lines 35–59. -/
theorem send_response_eq (api_token assistant_id : String)
    (messages_history : List Json) (r : HttpResponse) (payload : Json)
    (htok : api_token ≠ "") (haid : assistant_id ≠ "")
    (hpay : requestPayload messages_history = .ok payload) :
    get_assistant_response api_token assistant_id messages_history
        (.response r) =
      ⟨handleResponse assistant_id r, true⟩ := by
  unfold get_assistant_response
  rw [if_neg (not_or.mpr ⟨htok, haid⟩), hpay]

/-- A non-empty string is Python-truthy. -/
theorem truthy_str_of_ne (c : String) (hc : c ≠ "") :
    truthy (.str c) = true := by
  have h : c.isEmpty = false := by
    rw [Bool.eq_false_iff]
    intro h
    exact hc ((String.isEmpty_iff c).mp h)
  simp [truthy, h]

/-- C1: on a 2xx response whose body is JSON with
`choices[0].message.content` a non-empty string `c`, the call succeeds with
answer `c`, the top-level `sources` value of the body taken verbatim (Python
`None` when the field is absent), and no error.  (The history hypothesis —
every entry carries `role` and `content`, i.e. the payload of lines 24–31
builds — is what the existence of an HTTP response presupposes.) -/
theorem send_success_answer_and_sources
    (api_token assistant_id : String) (messages_history : List Json)
    (r : HttpResponse) (payload : Json) (d m0 mk : List (String × Json))
    (rest : List Json) (c : String)
    (htok : api_token ≠ "") (haid : assistant_id ≠ "")
    (hpay : requestPayload messages_history = .ok payload)
    (hst : 200 ≤ r.status ∧ r.status < 300)
    (hjson : r.json? = some (.obj d))
    (hch : jlookup d "choices" = some (.arr (.obj m0 :: rest)))
    (hmsg : jlookup m0 "message" = some (.obj mk))
    (hcont : jlookup mk "content" = some (.str c))
    (hc : c ≠ "") :
    get_assistant_response api_token assistant_id messages_history
        (.response r) =
      ⟨.ok ⟨.str c, (jlookup d "sources").getD .null, none⟩, true⟩ := by
  rw [send_response_eq api_token assistant_id messages_history r payload
    htok haid hpay]
  have hec : extractContent (.obj d) = .ok (.str c) := by
    simp [extractContent, dictGetD, pyIndex0, hch, hmsg, hcont]
  have hne : ¬(400 ≤ r.status ∧ r.status < 600) := by omega
  simp [handleResponse, hne, hjson, hec, dictGetD, truthy_str_of_ne c hc]

/-- Witness for C1, on the example body of the spec:
`choices = [ message = content "Hi" ]`, `sources = [ doc1 / http://x ]`. -/
theorem send_success_answer_and_sources_witness :
    get_assistant_response "tok" "my-assistant" []
        (.response ⟨200, "raw", "OK",
          some (.obj
            [("choices",
               .arr [.obj [("message", .obj [("content", .str "Hi")])]]),
             ("sources",
               .arr [.obj [("source_document_name", .str "doc1"),
                           ("source_location", .str "http://x")]])])⟩) =
      ⟨.ok ⟨.str "Hi",
            .arr [.obj [("source_document_name", .str "doc1"),
                        ("source_location", .str "http://x")]],
            none⟩, true⟩ :=
  send_success_answer_and_sources "tok" "my-assistant" []
    ⟨200, "raw", "OK",
      some (.obj
        [("choices",
           .arr [.obj [("message", .obj [("content", .str "Hi")])]]),
         ("sources",
           .arr [.obj [("source_document_name", .str "doc1"),
                       ("source_location", .str "http://x")]])])⟩
    (.obj [("messages", .arr []), ("stream", .bool false)])
    [("choices",
       .arr [.obj [("message", .obj [("content", .str "Hi")])]]),
     ("sources",
       .arr [.obj [("source_document_name", .str "doc1"),
                   ("source_location", .str "http://x")]])]
    [("message", .obj [("content", .str "Hi")])]
    [("content", .str "Hi")]
    [] "Hi"
    (by decide) (by decide) rfl ⟨by decide, by decide⟩ rfl rfl rfl rfl
    (by decide)

/-- C2: the request body built from the history (lines 24–31) is exactly
`messages` paired with `stream = false`, where `messages` keeps one entry
per history message, in the same order (`List.Forall₂`), each reduced to
exactly its `role` and `content` fields — so any `sources` field is dropped
from every entry. -/
theorem request_payload_exact (messages_history : List Json)
    (h : ∀ m ∈ messages_history, ∃ kvs r c, m = .obj kvs ∧
      jlookup kvs "role" = some r ∧ jlookup kvs "content" = some c) :
    ∃ pm, buildPayloadMessages messages_history = .ok pm ∧
      requestPayload messages_history =
        .ok (.obj [("messages", .arr pm), ("stream", .bool false)]) ∧
      List.Forall₂ (fun m e => ∃ kvs r c, m = .obj kvs ∧
        jlookup kvs "role" = some r ∧ jlookup kvs "content" = some c ∧
        e = .obj [("role", r), ("content", c)] ∧
        jlookup [("role", r), ("content", c)] "sources" = none)
        messages_history pm := by
  induction messages_history with
  | nil => exact ⟨[], rfl, rfl, .nil⟩
  | cons m t ih =>
    obtain ⟨kvs, rv, cv, hm, hr, hc⟩ := h m (List.mem_cons_self m t)
    obtain ⟨pmt, hb, _hp, hf⟩ :=
      ih (fun x hx => h x (List.mem_cons_of_mem m hx))
    refine ⟨.obj [("role", rv), ("content", cv)] :: pmt, ?_, ?_, ?_⟩
    · simp [buildPayloadMessages, hm, pySubscript, hr, hc, hb]
    · simp [requestPayload, buildPayloadMessages, hm, pySubscript, hr, hc, hb]
    · exact .cons ⟨kvs, rv, cv, hm, hr, hc, rfl, by simp [jlookup]⟩ hf

/-- Witness for C2: a two-turn history whose assistant message carries a
`sources` field; the built payload keeps order, drops `sources`, and sets
`stream` to `false`. -/
theorem request_payload_exact_witness :
    ∃ pm, buildPayloadMessages
        [.obj [("role", .str "user"), ("content", .str "hello")],
         .obj [("role", .str "assistant"), ("content", .str "Hi"),
               ("sources",
                 .arr [.obj [("source_document_name", .str "doc1")]])]] =
        .ok pm ∧
      requestPayload
        [.obj [("role", .str "user"), ("content", .str "hello")],
         .obj [("role", .str "assistant"), ("content", .str "Hi"),
               ("sources",
                 .arr [.obj [("source_document_name", .str "doc1")]])]] =
        .ok (.obj [("messages", .arr pm), ("stream", .bool false)]) ∧
      List.Forall₂ (fun (m e : Json) => ∃ kvs r c, m = Json.obj kvs ∧
        jlookup kvs "role" = some r ∧ jlookup kvs "content" = some c ∧
        e = Json.obj [("role", r), ("content", c)] ∧
        jlookup [("role", r), ("content", c)] "sources" = none)
        [Json.obj [("role", .str "user"), ("content", .str "hello")],
         Json.obj [("role", .str "assistant"), ("content", .str "Hi"),
               ("sources",
                 .arr [.obj [("source_document_name", .str "doc1")]])]]
        pm :=
  request_payload_exact
    [.obj [("role", .str "user"), ("content", .str "hello")],
     .obj [("role", .str "assistant"), ("content", .str "Hi"),
           ("sources", .arr [.obj [("source_document_name", .str "doc1")]])]]
    (by
      intro m hm
      simp only [List.mem_cons, List.not_mem_nil, or_false] at hm
      rcases hm with rfl | rfl
      · exact ⟨_, _, _, rfl, rfl, rfl⟩
      · exact ⟨_, _, _, rfl, rfl, rfl⟩)

/-- C6: a 2xx response whose body is not parseable JSON is mapped by the
`json.JSONDecodeError` handler (lines 54–56) to the Protocol error, whose
detail string carries the raw response body, with no answer and no
sources. -/
theorem send_unparseable_body_decode_error
    (api_token assistant_id : String) (messages_history : List Json)
    (r : HttpResponse) (payload : Json)
    (htok : api_token ≠ "") (haid : assistant_id ≠ "")
    (hpay : requestPayload messages_history = .ok payload)
    (hst : 200 ≤ r.status ∧ r.status < 300)
    (hjson : r.json? = none) :
    get_assistant_response api_token assistant_id messages_history
        (.response r) =
      ⟨.ok ⟨.null, .null, some (.jsonDecodeError r.body)⟩, true⟩ ∧
    ∃ pre, renderError (.jsonDecodeError r.body) = pre ++ r.body := by
  constructor
  · rw [send_response_eq api_token assistant_id messages_history r payload
      htok haid hpay]
    have hne : ¬(400 ≤ r.status ∧ r.status < 600) := by omega
    simp [handleResponse, hne, hjson]
  · exact ⟨"JSON decode error. Response: ", rfl⟩

/-- Witness for C6: a 200 response whose body `not json at all` fails to
parse; the call returns the Protocol error carrying that raw body. -/
theorem send_unparseable_body_decode_error_witness :
    get_assistant_response "tok" "my-assistant" []
        (.response ⟨200, "not json at all", "OK", none⟩) =
      ⟨.ok ⟨.null, .null, some (.jsonDecodeError "not json at all")⟩, true⟩ ∧
    ∃ pre, renderError (.jsonDecodeError "not json at all") =
      pre ++ "not json at all" :=
  send_unparseable_body_decode_error "tok" "my-assistant" []
    ⟨200, "not json at all", "OK", none⟩
    (.obj [("messages", .arr []), ("stream", .bool false)])
    (by decide) (by decide) rfl ⟨by decide, by decide⟩ rfl

/-- C7 counterexample: `raise_for_status` raises only for statuses in
`[400, 600)`, so the non-2xx status 300 with a parseable success body is
*not* mapped to an HTTP error — the call succeeds with answer `"Hi"` and no
error, contradicting "for every response with a non-2xx HTTP status, send
returns an HTTP error ... and no answer". -/
theorem send_non2xx_not_http_error_counterexample :
    (get_assistant_response "tok" "my-assistant" []
        (.response ⟨300, "raw", "Multiple Choices",
          some (.obj [("choices",
            .arr [.obj [("message", .obj [("content", .str "Hi")])]])])⟩)).result =
      .ok ⟨.str "Hi", .null, none⟩ ∧
    (SendResult.mk (.str "Hi") .null none).error = none ∧
    Json.str "Hi" ≠ Json.null :=
  ⟨rfl, rfl, fun h => Json.noConfusion h⟩

/-- C7 (amended): for every response whose status is in `[400, 600)` — the
statuses `raise_for_status` raises `HTTPError` for, per the comment in the
code, "4XX or 5XX" — the call returns the HTTP error carrying the status
and the raw response body, whose rendered detail contains the status and the
body as substrings, and no answer and no sources. -/
theorem send_4xx5xx_http_error
    (api_token assistant_id : String) (messages_history : List Json)
    (r : HttpResponse) (payload : Json)
    (htok : api_token ≠ "") (haid : assistant_id ≠ "")
    (hpay : requestPayload messages_history = .ok payload)
    (hst : 400 ≤ r.status ∧ r.status < 600) :
    get_assistant_response api_token assistant_id messages_history
        (.response r) =
      ⟨.ok ⟨.null, .null,
        some (.httpError r.status r.reason r.body (apiUrl assistant_id))⟩,
       true⟩ ∧
    (∃ pre post,
      renderError
          (.httpError r.status r.reason r.body (apiUrl assistant_id)) =
        pre ++ (toString r.status ++ post)) ∧
    (∃ pre,
      renderError
          (.httpError r.status r.reason r.body (apiUrl assistant_id)) =
        pre ++ r.body) := by
  refine ⟨?_, ?_, ?_⟩
  · rw [send_response_eq api_token assistant_id messages_history r payload
      htok haid hpay]
    unfold handleResponse
    rw [if_pos hst]
  · refine ⟨"HTTP error occurred: ",
      (if r.status < 500 then " Client Error: " else " Server Error: ") ++
        r.reason ++ " for url: " ++ apiUrl assistant_id ++ ". Response: " ++
        r.body, ?_⟩
    simp [renderError, String.append_assoc]
  · exact ⟨"HTTP error occurred: " ++ toString r.status ++
      (if r.status < 500 then " Client Error: " else " Server Error: ") ++
      r.reason ++ " for url: " ++ apiUrl assistant_id ++ ". Response: ",
      rfl⟩

/-- Witness for the amended C7: status 500 with body `boom` yields the HTTP
error carrying 500 and `boom`, with no answer. -/
theorem send_4xx5xx_http_error_witness :
    get_assistant_response "tok" "my-assistant" []
        (.response ⟨500, "boom", "Internal Server Error", none⟩) =
      ⟨.ok ⟨.null, .null,
        some (.httpError 500 "Internal Server Error" "boom"
          (apiUrl "my-assistant"))⟩, true⟩ ∧
    (∃ pre post,
      renderError (.httpError 500 "Internal Server Error" "boom"
          (apiUrl "my-assistant")) =
        pre ++ (toString 500 ++ post)) ∧
    (∃ pre,
      renderError (.httpError 500 "Internal Server Error" "boom"
          (apiUrl "my-assistant")) =
        pre ++ "boom") :=
  send_4xx5xx_http_error "tok" "my-assistant" []
    ⟨500, "boom", "Internal Server Error", none⟩
    (.obj [("messages", .arr []), ("stream", .bool false)])
    (by decide) (by decide) rfl ⟨by decide, by decide⟩

/-- C4 counterexample: on a 2xx body whose `choices` is present and an empty
list, the `[0]` of line 39 raises `IndexError`, caught at line 57 — the call
returns the Shape (unexpected-structure) error, not the Empty-Response
error the claim asserts for this case. -/
theorem send_choices_empty_list_counterexample :
    (get_assistant_response "tok" "my-assistant" []
        (.response ⟨200, "raw", "OK",
          some (.obj [("choices", .arr [])])⟩)).result =
      .ok ⟨.null, .null, some (.shapeError .indexError)⟩ ∧
    ChatError.shapeError .indexError ≠ .emptyResponse :=
  ⟨rfl, by decide⟩

/-- C4 (amended): on a 2xx JSON-object body where the answer text is missing
or empty — `choices` absent, or `choices[0]` an object whose `message` is
absent, whose `message.content` is absent, or whose content is `""` — the
call returns the Empty-Response error with no answer and no sources.  (When
`choices` is present but an empty list, the call returns the Shape error
instead.) -/
theorem send_missing_or_empty_content_empty_error
    (api_token assistant_id : String) (messages_history : List Json)
    (r : HttpResponse) (payload : Json) (d : List (String × Json))
    (htok : api_token ≠ "") (haid : assistant_id ≠ "")
    (hpay : requestPayload messages_history = .ok payload)
    (hst : 200 ≤ r.status ∧ r.status < 300)
    (hjson : r.json? = some (.obj d))
    (hcase :
      jlookup d "choices" = none ∨
      ∃ m0 rest, jlookup d "choices" = some (.arr (.obj m0 :: rest)) ∧
        (jlookup m0 "message" = none ∨
         ∃ mk, jlookup m0 "message" = some (.obj mk) ∧
           (jlookup mk "content" = none ∨
            jlookup mk "content" = some (.str "")))) :
    get_assistant_response api_token assistant_id messages_history
        (.response r) =
      ⟨.ok ⟨.null, .null, some .emptyResponse⟩, true⟩ := by
  rw [send_response_eq api_token assistant_id messages_history r payload
    htok haid hpay]
  have hne : ¬(400 ≤ r.status ∧ r.status < 600) := by omega
  have hec : ∃ v, extractContent (.obj d) = .ok v ∧ truthy v = false := by
    rcases hcase with h1 | ⟨m0, rest, h1, h2 | ⟨mk, h2, h3 | h3⟩⟩
    · exact ⟨.null,
        by simp [extractContent, dictGetD, pyIndex0, jlookup, h1], rfl⟩
    · exact ⟨.null,
        by simp [extractContent, dictGetD, pyIndex0, jlookup, h1, h2], rfl⟩
    · exact ⟨.null,
        by simp [extractContent, dictGetD, pyIndex0, jlookup, h1, h2, h3],
        rfl⟩
    · exact ⟨.str "",
        by simp [extractContent, dictGetD, pyIndex0, jlookup, h1, h2, h3],
        by decide⟩
  obtain ⟨v, hv, htv⟩ := hec
  simp [handleResponse, hne, hjson, hv, htv, dictGetD]

/-- Witness for the amended C4, on the example body of the spec:
`choices = [ message = content "" ]`: the call returns the Empty-Response
error, not a success with empty text. -/
theorem send_missing_or_empty_content_empty_error_witness :
    get_assistant_response "tok" "my-assistant" []
        (.response ⟨200, "raw", "OK",
          some (.obj [("choices",
            .arr [.obj [("message", .obj [("content", .str "")])]])])⟩) =
      ⟨.ok ⟨.null, .null, some .emptyResponse⟩, true⟩ :=
  send_missing_or_empty_content_empty_error "tok" "my-assistant" []
    ⟨200, "raw", "OK",
      some (.obj [("choices",
        .arr [.obj [("message", .obj [("content", .str "")])]])])⟩
    (.obj [("messages", .arr []), ("stream", .bool false)])
    [("choices", .arr [.obj [("message", .obj [("content", .str "")])]])]
    (by decide) (by decide) rfl ⟨by decide, by decide⟩ rfl
    (Or.inr ⟨[("message", .obj [("content", .str "")])], [], rfl,
      Or.inr ⟨[("content", .str "")], rfl, Or.inr rfl⟩⟩)

/-- C5 counterexample: on a 2xx JSON body that lacks the required
`message.content` field, the `.get` chain of line 39 yields `None` — no
`KeyError` is raised — so the call returns the Empty-Response error, not a
Shape error as the claim asserts for missing required fields. -/
theorem send_missing_content_not_shape_error_counterexample :
    (get_assistant_response "tok" "my-assistant" []
        (.response ⟨200, "raw", "OK",
          some (.obj [("choices",
            .arr [.obj [("message", .obj [])]])])⟩)).result =
      .ok ⟨.null, .null, some .emptyResponse⟩ ∧
    ∀ e : PyExc, ChatError.emptyResponse ≠ .shapeError e :=
  ⟨rfl, fun _ h => ChatError.noConfusion h⟩

/-- C5 (amended): the Shape (unexpected-structure) error is raised on a 2xx
JSON body whose `choices` is an empty list (the `IndexError` case of line
57), and it is a different error kind from the Protocol (JSON-decode) error
returned for an unparseable body; a body merely lacking `message.content`
yields the Empty-Response error instead. -/
theorem send_shape_error_distinct_from_protocol_error
    (api_token assistant_id : String) (messages_history : List Json)
    (r1 r2 : HttpResponse) (payload : Json) (d : List (String × Json))
    (htok : api_token ≠ "") (haid : assistant_id ≠ "")
    (hpay : requestPayload messages_history = .ok payload)
    (h1st : 200 ≤ r1.status ∧ r1.status < 300)
    (h1json : r1.json? = some (.obj d))
    (hch : jlookup d "choices" = some (.arr []))
    (h2st : 200 ≤ r2.status ∧ r2.status < 300)
    (h2json : r2.json? = none) :
    get_assistant_response api_token assistant_id messages_history
        (.response r1) =
      ⟨.ok ⟨.null, .null, some (.shapeError .indexError)⟩, true⟩ ∧
    get_assistant_response api_token assistant_id messages_history
        (.response r2) =
      ⟨.ok ⟨.null, .null, some (.jsonDecodeError r2.body)⟩, true⟩ ∧
    ∀ b, ChatError.shapeError .indexError ≠ .jsonDecodeError b := by
  refine ⟨?_, ?_, fun _ h => ChatError.noConfusion h⟩
  · rw [send_response_eq api_token assistant_id messages_history r1 payload
      htok haid hpay]
    have hne : ¬(400 ≤ r1.status ∧ r1.status < 600) := by omega
    have hec : extractContent (.obj d) = .error .indexError := by
      simp [extractContent, dictGetD, pyIndex0, hch]
    simp [handleResponse, hne, h1json, hec]
  · rw [send_response_eq api_token assistant_id messages_history r2 payload
      htok haid hpay]
    have hne : ¬(400 ≤ r2.status ∧ r2.status < 600) := by omega
    simp [handleResponse, hne, h2json]

/-- Witness for the amended C5: the two concrete 200 responses — `choices`
an empty list, and an unparseable body — produce the Shape error and the
Protocol error respectively, and the two rendered error messages differ. -/
theorem send_shape_error_distinct_from_protocol_error_witness :
    (get_assistant_response "tok" "my-assistant" []
        (.response ⟨200, "raw", "OK", some (.obj [("choices", .arr [])])⟩) =
      ⟨.ok ⟨.null, .null, some (.shapeError .indexError)⟩, true⟩ ∧
    get_assistant_response "tok" "my-assistant" []
        (.response ⟨200, "not json at all", "OK", none⟩) =
      ⟨.ok ⟨.null, .null, some (.jsonDecodeError "not json at all")⟩,
       true⟩ ∧
    ∀ b, ChatError.shapeError .indexError ≠ .jsonDecodeError b) ∧
    renderError (.shapeError .indexError) ≠
      renderError (.jsonDecodeError "not json at all") :=
  ⟨send_shape_error_distinct_from_protocol_error "tok" "my-assistant" []
      ⟨200, "raw", "OK", some (.obj [("choices", .arr [])])⟩
      ⟨200, "not json at all", "OK", none⟩
      (.obj [("messages", .arr []), ("stream", .bool false)])
      [("choices", .arr [])]
      (by decide) (by decide) rfl ⟨by decide, by decide⟩ rfl rfl
      ⟨by decide, by decide⟩ rfl,
    by decide⟩

/-- C3: when the token or the assistant identifier is empty,
`get_assistant_response` returns the Configuration error with no answer and
no sources, and issues no network call (lines 13–14 run before the request
is even assembled). -/
theorem send_empty_config_no_network (api_token assistant_id : String)
    (messages_history : List Json) (net : NetOutcome)
    (h : api_token = "" ∨ assistant_id = "") :
    get_assistant_response api_token assistant_id messages_history net =
      ⟨.ok ⟨.null, .null, some .configMissing⟩, false⟩ := by
  unfold get_assistant_response
  rw [if_pos h]

/-- Witness for C3: the concrete call with an empty token and a live
endpoint behind it still returns the Configuration error and does not touch
the network. -/
theorem send_empty_config_no_network_witness :
    (("" : String) = "" ∨ ("my-assistant" : String) = "") ∧
    get_assistant_response "" "my-assistant" []
        (.response ⟨200, "raw", "OK", some (.obj [])⟩) =
      ⟨.ok ⟨.null, .null, some .configMissing⟩, false⟩ :=
  ⟨Or.inl rfl,
    send_empty_config_no_network "" "my-assistant" []
      (.response ⟨200, "raw", "OK", some (.obj [])⟩) (Or.inl rfl)⟩

/-- C8: resetting the session clears the Conversation Store and the Session
Configuration together: the snapshot afterwards is empty, both credentials
are empty, and a `send` issued without re-entering configuration fails with
the Configuration error and performs no network call. -/
theorem reset_clears_config_and_store (s : SessionState)
    (history : List Json) (net : NetOutcome) :
    snapshot (resetSession s) = [] ∧
    (resetSession s).api_token = "" ∧
    (resetSession s).assistant_id = "" ∧
    get_assistant_response (resetSession s).api_token
        (resetSession s).assistant_id history net =
      ⟨.ok ⟨.null, .null, some .configMissing⟩, false⟩ := by
  refine ⟨rfl, rfl, rfl, ?_⟩
  simp [resetSession, get_assistant_response]

/-- Every triple the response mapping can return is either a success with a
Python-truthy answer and no error, or a failure with an error and neither
answer nor sources. -/
theorem handleResponse_dichotomy (assistant_id : String) (r : HttpResponse)
    (res : SendResult) (h : handleResponse assistant_id r = .ok res) :
    (res.error = none →
      truthy res.answer = true ∧ ∀ s, res.answer = .str s → s ≠ "") ∧
    (res.error ≠ none → res.answer = .null ∧ res.sources = .null) := by
  unfold handleResponse at h
  split at h
  · simp only [Except.ok.injEq] at h
    subst h
    simp
  · split at h
    · simp only [Except.ok.injEq] at h
      subst h
      simp
    · split at h
      · simp only [Except.ok.injEq] at h
        subst h
        simp
      · simp only [Except.ok.injEq] at h
        subst h
        simp
      · simp at h
      · split at h
        · simp at h
        · split at h
          · rename_i htr
            simp only [Except.ok.injEq] at h
            subst h
            dsimp only
            refine ⟨fun _ => ⟨htr, fun s hs hse => ?_⟩,
              fun hne => absurd rfl hne⟩
            subst hse
            rw [hs] at htr
            exact absurd htr (by decide)
          · simp only [Except.ok.injEq] at h
            subst h
            simp

/-- C10 (amended): each return value of `get_assistant_response` is
exclusively a success or a failure: when `error` is `None` the answer is a
Python-truthy value (in particular a non-empty string whenever it is a
string at all); when `error` is not `None` both the answer and the sources
are `None` — so an answer never accompanies an error and sources never come
without an answer. -/
theorem send_result_success_failure_dichotomy
    (api_token assistant_id : String) (messages_history : List Json)
    (net : NetOutcome) (res : SendResult)
    (h : (get_assistant_response api_token assistant_id messages_history
        net).result = .ok res) :
    (res.error = none →
      truthy res.answer = true ∧ ∀ s, res.answer = .str s → s ≠ "") ∧
    (res.error ≠ none → res.answer = .null ∧ res.sources = .null) := by
  unfold get_assistant_response at h
  split at h
  · simp only [Except.ok.injEq] at h
    subst h
    simp
  · split at h
    · simp at h
    · split at h
      · simp only [Except.ok.injEq] at h
        subst h
        simp
      · exact handleResponse_dichotomy _ _ res h

/-- Witness for the amended C10 at a concrete success: answer `"Hi"` is
truthy and non-empty, and the failure direction holds vacuously. -/
theorem send_result_success_failure_dichotomy_witness :
    ((SendResult.mk (.str "Hi") .null none).error = none →
      truthy (SendResult.mk (.str "Hi") .null none).answer = true ∧
      ∀ s, (SendResult.mk (.str "Hi") .null none).answer = .str s →
        s ≠ "") ∧
    ((SendResult.mk (.str "Hi") .null none).error ≠ none →
      (SendResult.mk (.str "Hi") .null none).answer = .null ∧
      (SendResult.mk (.str "Hi") .null none).sources = .null) :=
  send_result_success_failure_dichotomy "tok" "my-assistant" []
    (.response ⟨200, "raw", "OK",
      some (.obj [("choices",
        .arr [.obj [("message", .obj [("content", .str "Hi")])]])])⟩)
    ⟨.str "Hi", .null, none⟩ rfl

/-- C10 counterexample: when the `content` of the body is the JSON number `5`
(truthy, not a string), the call succeeds and returns that number as the
answer — `error` is `None` but the answer is not a non-empty string, so
"if error is None then answer is a non-empty string" fails as stated. -/
theorem send_success_nonstring_answer_counterexample :
    (get_assistant_response "tok" "my-assistant" []
        (.response ⟨200, "raw", "OK",
          some (.obj [("choices",
            .arr [.obj [("message", .obj [("content", .num 5)])]])])⟩)).result =
      .ok ⟨.num 5, .null, none⟩ ∧
    ∀ s : String, Json.num 5 ≠ .str s :=
  ⟨rfl, fun _ h => Json.noConfusion h⟩

/-- C9: `get_assistant_response` never mutates the Conversation Store: the
session state threaded through `sendFromSession` comes back unchanged — the
store holds the same message records in the same order on every path,
success or error.  (The function body, lines 9–59, contains no assignment to
`st.session_state.messages`; line 26 appends to the fresh local list
`api_payload_messages`.) -/
theorem send_does_not_mutate_store (s : SessionState) (net : NetOutcome) :
    (sendFromSession s net).2.messages = s.messages ∧
    (sendFromSession s net).2 = s :=
  ⟨rfl, rfl⟩

end ChatRag
